import Mathlib

set_option linter.unnecessarySeqFocus false

/-!
Verification of the lem multi-tenant authorization/session core.

Shallow embedding of:
* the JWT token codec and the access/refresh/admin-session token kinds
  (internal/middleware auth.go, admin_auth.go),
* the request-authorization middleware policies (APIKeyAuth, JWTAuth,
  OptionalJWTAuth) and their composition on protected routes
  (internal/routes/routes.go),
* the auth service refresh operation (internal/services/auth.go),
* the organization membership engine with its transactional operations
  (internal/services/organization.go).

Time is modelled as `Nat` (Unix seconds); the Go `time.Time` zero value is
modelled as `0`, so `IsZero` becomes `= 0` and `time.Now().After(t)` becomes
`t < now`.  The HMAC signature is modelled as an idealized MAC that binds the
exact payload and secret: a token carries the payload and secret it was signed
over, and verification compares them to the presented payload and expected
secret.  Store writes inside a database transaction are staged and applied
only on commit; an explicit oracle records which writes the environment makes
fail, mirroring the `if err != nil { tx.Rollback() }` branches of the source.
-/

namespace Lem

/-- The single JSON claim object a token payload decodes to.  Both the
end-user `TokenClaims` view (user_id, app_id, org_id, org_role, type) and the
admin `AdminClaims` view (email, name, type) read from this object; a field a
given token never set carries the Go zero value (`0` or `""`), exactly as
`encoding/json` produces when decoding a payload into the other claim
struct. -/
structure JWTPayload where
  user_id : Nat
  app_id : Nat
  org_id : Nat
  org_role : String
  email : String
  name : String
  typ : String
  exp : Nat
  iat : Nat
deriving DecidableEq, Repr

/-- A signed compact token: payload, algorithm header, and the idealized MAC
(the secret and payload the signature was computed over). -/
structure SignedToken where
  payload : JWTPayload
  alg : String
  macSecret : String
  macPayload : JWTPayload
deriving DecidableEq, Repr

/-- `jwt.NewWithClaims(jwt.SigningMethodHS256, claims).SignedString(secret)`. -/
def signHS256 (secret : String) (p : JWTPayload) : SignedToken :=
  ⟨p, "HS256", secret, p⟩

/-- The keyfunc check `token.Method.(*jwt.SigningMethodHMAC)`: the HMAC
family accepted by both `ValidateToken` and `ValidateAdminToken`. -/
def hmacFamily (alg : String) : Bool :=
  alg == "HS256" || alg == "HS384" || alg == "HS512"

/-- Process configuration (internal/config/config.go), restricted to the
fields the authorization core reads. -/
structure Config where
  jwtSecretKey : String
  accessTokenExpireMinutes : Nat
  refreshTokenExpireDays : Nat
  adminEmails : List String
  env : String
deriving DecidableEq, Repr

/-- `AuthMiddleware.ValidateToken`: parse with the HMAC keyfunc, verify the
signature, and let the jwt/v5 validator reject an expired token.  No kind
check happens here — the `type` claim is checked by the callers
(`JWTAuth`, `OptionalJWTAuth`, `AuthService.RefreshToken`). -/
def validateToken (secret : String) (now : Nat) (t : SignedToken) :
    Except String JWTPayload :=
  if !hmacFamily t.alg then .error "unexpected signing method"
  else if !(t.macSecret == secret && t.macPayload == t.payload) then
    .error "signature is invalid"
  else if t.payload.exp ≤ now then .error "token is expired"
  else .ok t.payload

/-- The end-user access validation of `JWTAuth` before the store lookup:
`ValidateToken` followed by the `claims.Type != "access"` rejection.  This is
the spec's `validate_access`. -/
def validateAccess (secret : String) (now : Nat) (t : SignedToken) :
    Except String JWTPayload :=
  match validateToken secret now t with
  | .error e => .error e
  | .ok claims =>
    if claims.typ != "access" then .error "Invalid token type"
    else .ok claims

/-- `AdminAuthMiddleware.ValidateAdminToken`: same parse steps, then the
in-function `claims.Type != "admin_session"` rejection. -/
def validateAdminToken (secret : String) (now : Nat) (t : SignedToken) :
    Except String JWTPayload :=
  if !hmacFamily t.alg then .error "unexpected signing method"
  else if !(t.macSecret == secret && t.macPayload == t.payload) then
    .error "signature is invalid"
  else if t.payload.exp ≤ now then .error "token is expired"
  else if t.payload.typ != "admin_session" then .error "invalid token type"
  else .ok t.payload

/-- `AuthMiddleware.GenerateAccessToken`: kind "access", ttl = configured
access minutes, all claim fields set. -/
def generateAccessToken (cfg : Config) (now : Nat)
    (userID appID orgID : Nat) (orgRole : String) : SignedToken :=
  signHS256 cfg.jwtSecretKey
    { user_id := userID, app_id := appID, org_id := orgID,
      org_role := orgRole, email := "", name := "", typ := "access",
      exp := now + cfg.accessTokenExpireMinutes * 60, iat := now }

/-- `AuthMiddleware.GenerateRefreshToken`: kind "refresh", ttl = configured
refresh days; the claims struct literal sets no `OrgRole`, so the claim
carries the zero value `""`. -/
def generateRefreshToken (cfg : Config) (now : Nat)
    (userID appID orgID : Nat) : SignedToken :=
  signHS256 cfg.jwtSecretKey
    { user_id := userID, app_id := appID, org_id := orgID,
      org_role := "", email := "", name := "", typ := "refresh",
      exp := now + cfg.refreshTokenExpireDays * 24 * 3600, iat := now }

/-- `AdminAuthMiddleware.CreateAdminToken`: kind "admin_session", 24-hour
expiry; user/app/org fields are absent from `AdminClaims`, hence zero. -/
def createAdminToken (cfg : Config) (now : Nat)
    (email name : String) : SignedToken :=
  signHS256 cfg.jwtSecretKey
    { user_id := 0, app_id := 0, org_id := 0, org_role := "",
      email := email, name := name, typ := "admin_session",
      exp := now + 24 * 3600, iat := now }

/-- `AdminAuthMiddleware.IsAdminEmail`: empty allowlist short-circuits to
false; otherwise both sides are lowercased and compared exactly. -/
def isAdminEmail (cfg : Config) (email : String) : Bool :=
  if cfg.adminEmails.length == 0 then false
  else cfg.adminEmails.any
    (fun adminEmail => adminEmail.toLower == email.toLower)

/-! ### Store entities -/

/-- A tenant ("App") row, restricted to the fields the middleware reads. -/
structure App where
  id : Nat
  apiKey : String
  isActive : Bool
deriving DecidableEq, Repr

/-- A user row, restricted to the fields the auth core reads. -/
structure User where
  id : Nat
  isActive : Bool
deriving DecidableEq, Repr

/-- Member role enum of the OrganizationMember schema. -/
inductive Role where
  | OWNER
  | ADMIN
  | MEMBER
deriving DecidableEq, Repr

/-- Status enum of the OrganizationInvitation schema. -/
inductive InvStatus where
  | PENDING
  | ACCEPTED
  | EXPIRED
  | REVOKED
deriving DecidableEq, Repr

/-- An organization row. -/
structure Organization where
  id : Nat
  appId : Nat
  name : String
  slug : String
  description : String
  logoURL : String
deriving DecidableEq, Repr

/-- An organization membership row. -/
structure OrganizationMember where
  id : Nat
  orgId : Nat
  userId : Nat
  role : Role
deriving DecidableEq, Repr

/-- An organization invitation row.  `expiresAt` is an optional ent field of
Go type `time.Time`; the unset value is the zero time, modelled as `0`.
`acceptedAt` is optional and nillable, modelled as `Option Nat`. -/
structure OrganizationInvitation where
  id : Nat
  orgId : Nat
  invitedById : Nat
  email : String
  role : Role
  token : String
  status : InvStatus
  expiresAt : Nat
  acceptedAt : Option Nat
deriving DecidableEq, Repr

/-- The relational store visible to the authorization core.  `nextId` supplies
the primary key the next inserted row receives. -/
structure Store where
  apps : List App
  users : List User
  orgs : List Organization
  members : List OrganizationMember
  invitations : List OrganizationInvitation
  nextId : Nat
deriving DecidableEq, Repr

/-- `client.User.Get(ctx, id)`: primary-key lookup. -/
def getUser (st : Store) (id : Nat) : Option User :=
  st.users.find? (fun u => u.id == id)

/-- `client.App.Query().Where(app.APIKey(key)).First(ctx)`. -/
def findAppByKey (st : Store) (key : String) : Option App :=
  st.apps.find? (fun a => a.apiKey == key)

/-! ### Request authorization middleware -/

/-- Outcome of parsing the `Authorization` header string: absent, present but
not of the form `Bearer <token>` after `strings.Split` on a space, or a
well-formed bearer token. -/
inductive AuthHeader where
  | missing
  | malformed
  | bearer (t : SignedToken)
deriving DecidableEq, Repr

/-- Request-scoped context values the middleware attaches. -/
structure Ctx where
  app : Option App := none
  user : Option User := none
  claims : Option JWTPayload := none
deriving DecidableEq, Repr

/-- Result of one middleware step: an aborted request with an HTTP status and
message, or control passed on with the (possibly extended) context. -/
inductive MWResult where
  | abort (status : Nat) (msg : String)
  | next (ctx : Ctx)
deriving DecidableEq, Repr

/-- `AuthMiddleware.APIKeyAuth`: the `X-API-Key` header (Gin's `GetHeader`
returns `""` for an absent header), tenant lookup, and the active-flag
gate. -/
def apiKeyAuth (st : Store) (apiKey : String) : MWResult :=
  if apiKey == "" then .abort 401 "API key required"
  else
    match findAppByKey st apiKey with
    | none => .abort 401 "Invalid API key"
    | some foundApp =>
      if !foundApp.isActive then .abort 403 "App is disabled"
      else .next { app := some foundApp }

/-- `AuthMiddleware.JWTAuth`: header checks, `ValidateToken`, the
`Type != "access"` rejection, the user lookup, and the user active-flag
gate. -/
def jwtAuth (cfg : Config) (st : Store) (now : Nat) (ctx : Ctx)
    (hdr : AuthHeader) : MWResult :=
  match hdr with
  | .missing => .abort 401 "Authorization header required"
  | .malformed => .abort 401 "Invalid authorization format"
  | .bearer t =>
    match validateToken cfg.jwtSecretKey now t with
    | .error e => .abort 401 ("Invalid token: " ++ e)
    | .ok claims =>
      if claims.typ != "access" then .abort 401 "Invalid token type"
      else
        match getUser st claims.user_id with
        | none => .abort 401 "User not found"
        | some u =>
          if !u.isActive then .abort 403 "User is disabled"
          else .next { ctx with user := some u, claims := some claims }

/-- `AuthMiddleware.OptionalJWTAuth`: every failure path calls `c.Next()`
without attaching anything; only a valid access token of an existing active
user attaches user and claims. -/
def optionalJwtAuth (cfg : Config) (st : Store) (now : Nat) (ctx : Ctx)
    (hdr : AuthHeader) : MWResult :=
  match hdr with
  | .missing => .next ctx
  | .malformed => .next ctx
  | .bearer t =>
    match validateToken cfg.jwtSecretKey now t with
    | .error _ => .next ctx
    | .ok claims =>
      if claims.typ != "access" then .next ctx
      else
        match getUser st claims.user_id with
        | none => .next ctx
        | some u =>
          if !u.isActive then .next ctx
          else .next { ctx with user := some u, claims := some claims }

/-- An incoming request as the middleware sees it. -/
structure Request where
  apiKey : String
  authHeader : AuthHeader
deriving DecidableEq, Repr

/-- The protected route group of `SetupRoutes`:
`protected.Use(auth.APIKeyAuth())` then `protected.Use(auth.JWTAuth())` —
Gin runs them in registration order and an abort stops the chain. -/
def runProtected (cfg : Config) (st : Store) (now : Nat)
    (req : Request) : MWResult :=
  match apiKeyAuth st req.apiKey with
  | .abort s m => .abort s m
  | .next ctx => jwtAuth cfg st now ctx req.authHeader

/-! ### Auth service: token refresh -/

/-- The token pair `AuthService.generateTokens` returns (plus the fields of
the HTTP response body it fills in). -/
structure AuthResponse where
  accessToken : SignedToken
  refreshToken : SignedToken
  tokenType : String
  expiresIn : Nat
  userId : Nat
deriving DecidableEq, Repr

/-- `AuthService.generateTokens`: issue both tokens, then re-load the user
row for the response body; an error of that lookup surfaces as a failure. -/
def generateTokens (cfg : Config) (st : Store) (now : Nat)
    (userID appID orgID : Nat) (orgRole : String) :
    Except String AuthResponse :=
  let access := generateAccessToken cfg now userID appID orgID orgRole
  let refresh := generateRefreshToken cfg now userID appID orgID
  match getUser st userID with
  | none => .error "user lookup failed"
  | some u =>
    .ok { accessToken := access, refreshToken := refresh,
          tokenType := "Bearer",
          expiresIn := cfg.accessTokenExpireMinutes * 60, userId := u.id }

/-- `AuthService.RefreshToken`: `ValidateToken`, the `Type != "refresh"`
rejection, the user lookup and active gate, then
`generateTokens(u.ID, claims.AppID, claims.OrgID, claims.OrgRole)` — the
org id and org role of the new tokens are read from the presented token's
claims. -/
def refreshTokenOp (cfg : Config) (st : Store) (now : Nat)
    (t : SignedToken) : Except String AuthResponse :=
  match validateToken cfg.jwtSecretKey now t with
  | .error _ => .error "invalid refresh token"
  | .ok claims =>
    if claims.typ != "refresh" then .error "invalid token type"
    else
      match getUser st claims.user_id with
      | none => .error "user not found"
      | some u =>
        if !u.isActive then .error "account is disabled"
        else generateTokens cfg st now u.id claims.app_id claims.org_id
          claims.org_role

/-! ### Organization membership engine -/

/-- The create-organization request body. -/
structure CreateOrganizationInput where
  name : String
  slug : String
  description : String
  logoURL : String
deriving DecidableEq, Repr

/-- Which store writes the environment makes fail during a transactional
operation.  `firstWriteFails`/`secondWriteFails` name the two writes of the
operation in source order; each `true` models the corresponding
`if err != nil { tx.Rollback(); return nil, err }` branch being taken. -/
structure TxOracle where
  beginFails : Bool := false
  firstWriteFails : Bool := false
  secondWriteFails : Bool := false
  commitFails : Bool := false
deriving DecidableEq, Repr

/-- The Organization row `Create` stages: the request fields under the
fresh primary key. -/
def newOrg (st : Store) (appID : Nat)
    (input : CreateOrganizationInput) : Organization :=
  { id := st.nextId, appId := appID, name := input.name,
    slug := input.slug, description := input.description,
    logoURL := input.logoURL }

/-- The founding OWNER membership row `Create` stages for the creator. -/
def newOwner (st : Store) (userID : Nat) : OrganizationMember :=
  { id := st.nextId + 1, orgId := st.nextId, userId := userID,
    role := .OWNER }

/-- `OrganizationService.Create`: inside one transaction, insert the
Organization row, then the creator's OWNER membership; roll back on either
insert error; only `tx.Commit()` makes both rows visible. -/
def createOrganization (st : Store) (appID userID : Nat)
    (input : CreateOrganizationInput) (o : TxOracle) :
    Except String Organization × Store :=
  if o.beginFails then (.error "tx begin failed", st)
  else
    let org := newOrg st appID input
    if o.firstWriteFails then (.error "organization insert failed", st)
    else
      let member := newOwner st userID
      if o.secondWriteFails then (.error "member insert failed", st)
      else if o.commitFails then (.error "commit failed", st)
      else (.ok org,
        { st with orgs := st.orgs ++ [org],
                  members := st.members ++ [member],
                  nextId := st.nextId + 2 })

/-- `client.OrganizationInvitation.UpdateOne(inv).SetStatus(EXPIRED)`:
update the row with the invitation's primary key to status EXPIRED. -/
def markExpired (invs : List OrganizationInvitation) (invId : Nat) :
    List OrganizationInvitation :=
  invs.map (fun i => if i.id == invId then { i with status := .EXPIRED }
                     else i)

/-- `tx.OrganizationInvitation.UpdateOne(inv).SetStatus(ACCEPTED)
.SetAcceptedAt(now)`: update the row with the invitation's primary key to
status ACCEPTED with acceptance timestamp `now`. -/
def markAccepted (invs : List OrganizationInvitation) (invId now : Nat) :
    List OrganizationInvitation :=
  invs.map (fun i => if i.id == invId then
              { i with status := .ACCEPTED, acceptedAt := some now }
            else i)

/-- The membership row `AcceptInvitation` stages for the accepting user:
fresh primary key, the invitation's organization, the invitation's role. -/
def invMember (st : Store) (inv : OrganizationInvitation)
    (userID : Nat) : OrganizationMember :=
  { id := st.nextId, orgId := inv.orgId, userId := userID,
    role := inv.role }

/-- The store state a successful `AcceptInvitation` transaction commits:
the staged membership insert and the ACCEPTED invitation update. -/
def acceptedState (st : Store) (inv : OrganizationInvitation)
    (userID now : Nat) : Store :=
  { st with
    members := st.members ++ [invMember st inv userID],
    invitations := markAccepted st.invitations inv.id now,
    nextId := st.nextId + 1 }

/-- `OrganizationService.AcceptInvitation`.  The lookup filters on
token + status=PENDING.  The expiry branch is
`!inv.ExpiresAt.IsZero() && time.Now().After(inv.ExpiresAt)`; it updates the
row to EXPIRED outside any transaction and returns the expired error.
Otherwise one transaction inserts the membership (org id taken from the
invitation's required organization edge, role from the invitation) and
updates the invitation to ACCEPTED with `accepted_at = now`; either write
failing rolls the whole transaction back.  The success value is the id of
the invitation's organization (the code returns the eagerly-loaded
organization row carrying this id). -/
def acceptInvitation (st : Store) (userID : Nat) (token : String)
    (now : Nat) (o : TxOracle) : Except String Nat × Store :=
  match st.invitations.find?
      (fun i => i.token == token && i.status == InvStatus.PENDING) with
  | none => (.error "invalid or expired invitation", st)
  | some inv =>
    if inv.expiresAt ≠ 0 ∧ inv.expiresAt < now then
      (.error "invitation has expired",
       { st with invitations := markExpired st.invitations inv.id })
    else if o.beginFails then (.error "tx begin failed", st)
    else if o.firstWriteFails then (.error "member insert failed", st)
    else if o.secondWriteFails then (.error "invitation update failed", st)
    else if o.commitFails then (.error "commit failed", st)
    else
      let member : OrganizationMember :=
        { id := st.nextId, orgId := inv.orgId, userId := userID,
          role := inv.role }
      (.ok inv.orgId,
       { st with members := st.members ++ [member],
                 invitations := markAccepted st.invitations inv.id now,
                 nextId := st.nextId + 1 })

/-! ### Concrete fixtures used by witnesses and counterexamples -/

/-- A concrete configuration with the default token lifetimes. -/
def cfgT : Config :=
  { jwtSecretKey := "s", accessTokenExpireMinutes := 30,
    refreshTokenExpireDays := 7, adminEmails := [], env := "local" }

/-- The all-successful transaction oracle. -/
def okTx : TxOracle := {}

/-- A store holding a single active user with id 1. -/
def stU : Store :=
  { apps := [], users := [{ id := 1, isActive := true }], orgs := [],
    members := [], invitations := [], nextId := 1 }

/-- Claims of a refresh token carrying a non-empty org role. -/
def pRefreshAdmin : JWTPayload :=
  { user_id := 1, app_id := 2, org_id := 3, org_role := "ADMIN",
    email := "", name := "", typ := "refresh", exp := 100, iat := 0 }

/-- The same refresh claims with a different org role. -/
def pRefreshMember : JWTPayload :=
  { pRefreshAdmin with org_role := "MEMBER" }

/-- Claims of an ordinary access token for user 1. -/
def pAccess : JWTPayload :=
  { user_id := 1, app_id := 2, org_id := 0, org_role := "",
    email := "", name := "", typ := "access", exp := 100, iat := 0 }

/-! ### Helper lemmas -/

/-- A successful `validateToken` returns exactly the token's payload. -/
theorem validateToken_ok_payload {secret : String} {now : Nat}
    {t : SignedToken} {p : JWTPayload}
    (h : validateToken secret now t = .ok p) : p = t.payload := by
  unfold validateToken at h
  split_ifs at h <;> simp_all

/-! ### Claims -/

/-- C8: `is_allowlisted` (IsAdminEmail) is a case-insensitive exact match
against the configured admin allowlist, and it is fail-closed: with an empty
allowlist it returns false for every input email, including the empty
string. -/
theorem isAdminEmail_allowlist_spec (cfg : Config) (email : String) :
    (isAdminEmail cfg email = true ↔
      ∃ a ∈ cfg.adminEmails, a.toLower = email.toLower) ∧
    (cfg.adminEmails = [] → isAdminEmail cfg email = false) := by
  constructor
  · unfold isAdminEmail
    cases h : cfg.adminEmails with
    | nil => simp
    | cons a as => simp [List.any_eq_true]
  · intro h
    simp [isAdminEmail, h]

/-- Witness for C8 at the empty allowlist and the empty email. -/
theorem isAdminEmail_allowlist_spec_witness : isAdminEmail cfgT "" = false :=
  (isAdminEmail_allowlist_spec cfgT "").2 rfl

/-- C3: a token whose kind discriminator is "admin_session" never validates
successfully against the end-user claim-schema validation (neither as an
access token nor as a refresh token), and a token whose kind is "access" or
"refresh" never validates successfully against the admin claim-schema
validation, for every claim payload, even when signed with the same shared
secret. -/
theorem schema_isolation (secret : String) (cfg : Config) (st : Store)
    (now : Nat) (t : SignedToken) :
    (t.payload.typ = "admin_session" →
      (∀ p, validateAccess secret now t ≠ .ok p) ∧
      (∀ r, refreshTokenOp cfg st now t ≠ .ok r)) ∧
    ((t.payload.typ = "access" ∨ t.payload.typ = "refresh") →
      ∀ p, validateAdminToken secret now t ≠ .ok p) := by
  constructor
  · intro h
    constructor
    · intro p hp
      unfold validateAccess validateToken at hp
      split_ifs at hp <;> simp_all
    · intro r hr
      unfold refreshTokenOp validateToken at hr
      split_ifs at hr <;> simp_all
  · intro h p hp
    unfold validateAdminToken at hp
    rcases h with h | h <;> (split_ifs at hp <;> simp_all)

/-- Witness for C3: an issued admin-session token fails `validate_access`
and the refresh operation, and issued access/refresh tokens fail
`ValidateAdminToken`, all under the same secret. -/
theorem schema_isolation_witness :
    (∀ p, validateAccess "s" 10 (createAdminToken cfgT 0 "a@b.c" "A") ≠
      .ok p) ∧
    (∀ p, validateAdminToken "s" 10 (generateAccessToken cfgT 0 1 2 0 "") ≠
      .ok p) ∧
    (∀ p, validateAdminToken "s" 10 (generateRefreshToken cfgT 0 1 2 0) ≠
      .ok p) :=
  ⟨((schema_isolation "s" cfgT stU 10
      (createAdminToken cfgT 0 "a@b.c" "A")).1 rfl).1,
   (schema_isolation "s" cfgT stU 10
      (generateAccessToken cfgT 0 1 2 0 "")).2 (Or.inl rfl),
   (schema_isolation "s" cfgT stU 10
      (generateRefreshToken cfgT 0 1 2 0)).2 (Or.inr rfl)⟩

/-- C5: kind isolation on every validation — a token of kind "refresh" is
rejected where an access token is required (both by `validate_access` and by
the required end-user session policy `JWTAuth`), and a token of kind
"access" is rejected by the refresh operation, for all claim payloads. -/
theorem kind_isolation (cfg : Config) (st : Store) (now : Nat) (ctx : Ctx)
    (t : SignedToken) :
    (t.payload.typ = "refresh" →
      (∀ p, validateAccess cfg.jwtSecretKey now t ≠ .ok p) ∧
      (∀ c, jwtAuth cfg st now ctx (.bearer t) ≠ .next c)) ∧
    (t.payload.typ = "access" →
      ∀ r, refreshTokenOp cfg st now t ≠ .ok r) := by
  constructor
  · intro h
    constructor
    · intro p hp
      unfold validateAccess validateToken at hp
      split_ifs at hp <;> simp_all
    · intro c hc
      unfold jwtAuth validateToken at hc
      simp only [] at hc
      split_ifs at hc <;> simp_all
  · intro h r hr
    unfold refreshTokenOp validateToken at hr
    split_ifs at hr <;> simp_all

/-- Witness for C5 at issued tokens: an issued refresh token fails
`validate_access` and `JWTAuth`, and an issued access token fails the
refresh operation. -/
theorem kind_isolation_witness :
    (∀ p, validateAccess cfgT.jwtSecretKey 10
      (generateRefreshToken cfgT 0 1 2 0) ≠ .ok p) ∧
    (∀ c, jwtAuth cfgT stU 10 {} (.bearer (generateRefreshToken cfgT 0 1 2 0)) ≠
      .next c) ∧
    (∀ r, refreshTokenOp cfgT stU 10
      (generateAccessToken cfgT 0 1 2 0 "") ≠ .ok r) :=
  ⟨((kind_isolation cfgT stU 10 {}
      (generateRefreshToken cfgT 0 1 2 0)).1 rfl).1,
   ((kind_isolation cfgT stU 10 {}
      (generateRefreshToken cfgT 0 1 2 0)).1 rfl).2,
   (kind_isolation cfgT stU 10 {}
      (generateAccessToken cfgT 0 1 2 0 "")).2 rfl⟩

/-- The refresh response produced at the C4 counterexample input. -/
def rCex : AuthResponse :=
  { accessToken := generateAccessToken cfgT 10 1 2 3 "ADMIN",
    refreshToken := generateRefreshToken cfgT 10 1 2 3,
    tokenType := "Bearer", expiresIn := 1800, userId := 1 }

/-- Counterexample for C4: two refresh tokens accepted by the refresh
operation against the same store, differing only in the org_role claim of
the presented token, yield access tokens with exactly those two org_role
values — the role is taken from the old token's claims, not re-derived at
refresh time. -/
theorem refresh_role_from_old_claims_cex :
    pRefreshAdmin.org_role = "ADMIN" ∧ pRefreshMember.org_role = "MEMBER" ∧
    (refreshTokenOp cfgT stU 10 (signHS256 "s" pRefreshAdmin)).map
      (fun r => r.accessToken.payload.org_role) = .ok "ADMIN" ∧
    (refreshTokenOp cfgT stU 10 (signHS256 "s" pRefreshMember)).map
      (fun r => r.accessToken.payload.org_role) = .ok "MEMBER" := by
  refine ⟨rfl, rfl, ?_, ?_⟩ <;> rfl

/-- C4 (amended): `issue_refresh` does omit org_role from refresh-token
claims, but the refresh operation does not re-derive the role — it copies
org_id and org_role from the presented refresh token's claims into the new
access token (so a refresh token produced by `issue_refresh` yields an
empty org_role). -/
theorem refresh_role_copied (cfg : Config) (st : Store) (now now0 : Nat)
    (userID appID orgID : Nat) (t : SignedToken) (r : AuthResponse) :
    (generateRefreshToken cfg now0 userID appID orgID).payload.org_role
      = "" ∧
    (refreshTokenOp cfg st now t = .ok r →
      r.accessToken.payload.org_role = t.payload.org_role ∧
      r.accessToken.payload.org_id = t.payload.org_id ∧
      r.refreshToken.payload.org_role = "") := by
  refine ⟨rfl, fun hr => ?_⟩
  unfold refreshTokenOp at hr
  cases hv : validateToken cfg.jwtSecretKey now t with
  | error e => rw [hv] at hr; simp at hr
  | ok claims =>
    rw [hv] at hr
    have hc := validateToken_ok_payload hv
    subst hc
    simp only [] at hr
    split_ifs at hr with h1
    cases hu : getUser st t.payload.user_id with
    | none => rw [hu] at hr; simp at hr
    | some u =>
      rw [hu] at hr
      simp only [] at hr
      split_ifs at hr with hact
      unfold generateTokens at hr
      cases hg : getUser st u.id with
      | none => rw [hg] at hr; simp at hr
      | some u2 =>
        rw [hg] at hr
        simp only [Except.ok.injEq] at hr
        subst hr
        exact ⟨rfl, rfl, rfl⟩

/-- Witness for C4 (amended) at the counterexample input: the refresh
response exists and its access token carries the presented token's org
claims. -/
theorem refresh_role_copied_witness :
    (generateRefreshToken cfgT 0 1 2 3).payload.org_role = "" ∧
    rCex.accessToken.payload.org_role =
      (signHS256 "s" pRefreshAdmin).payload.org_role ∧
    rCex.accessToken.payload.org_id =
      (signHS256 "s" pRefreshAdmin).payload.org_id ∧
    rCex.refreshToken.payload.org_role = "" :=
  ⟨(refresh_role_copied cfgT stU 10 0 1 2 3
      (signHS256 "s" pRefreshAdmin) rCex).1,
   (refresh_role_copied cfgT stU 10 0 1 2 3
      (signHS256 "s" pRefreshAdmin) rCex).2 rfl⟩

/-- C6: tenant gating by the middleware — a request with no API key is
rejected Unauthorized, an API key matching no tenant is rejected
Unauthorized, and an API key resolving to an inactive tenant is rejected
Forbidden; on the protected route group (API key + JWT) the Forbidden
rejection happens at the tenant-gate step, for every bearer header, before
any token validation is attempted. -/
theorem tenant_gate (cfg : Config) (st : Store) (now : Nat)
    (req : Request) :
    (req.apiKey = "" →
      runProtected cfg st now req = .abort 401 "API key required") ∧
    (req.apiKey ≠ "" → findAppByKey st req.apiKey = none →
      runProtected cfg st now req = .abort 401 "Invalid API key") ∧
    (∀ a, req.apiKey ≠ "" → findAppByKey st req.apiKey = some a →
      a.isActive = false →
      ∀ hdr, runProtected cfg st now ⟨req.apiKey, hdr⟩ =
        .abort 403 "App is disabled") := by
  refine ⟨fun h => ?_, fun h hfind => ?_, fun a h hfind hina hdr => ?_⟩
  · simp [runProtected, apiKeyAuth, h]
  · simp [runProtected, apiKeyAuth, h, hfind]
  · simp [runProtected, apiKeyAuth, h, hfind, hina]

/-- A store holding one inactive tenant with API key "key-abc" and one
active user. -/
def stGate : Store :=
  { apps := [{ id := 1, apiKey := "key-abc", isActive := false }],
    users := [{ id := 1, isActive := true }], orgs := [], members := [],
    invitations := [], nextId := 1 }

/-- Witness for C6: missing key, unknown key, and inactive tenant — the
last carrying a perfectly valid access token that is never examined. -/
theorem tenant_gate_witness :
    runProtected cfgT stGate 10 ⟨"", .missing⟩ =
      .abort 401 "API key required" ∧
    runProtected cfgT stGate 10 ⟨"nope", .missing⟩ =
      .abort 401 "Invalid API key" ∧
    runProtected cfgT stGate 10
      ⟨"key-abc", .bearer (signHS256 "s" pAccess)⟩ =
      .abort 403 "App is disabled" :=
  ⟨(tenant_gate cfgT stGate 10 ⟨"", .missing⟩).1 rfl,
   (tenant_gate cfgT stGate 10 ⟨"nope", .missing⟩).2.1 (by simp) rfl,
   (tenant_gate cfgT stGate 10 ⟨"key-abc", .missing⟩).2.2
      ⟨1, "key-abc", false⟩ (by simp) rfl rfl
      (.bearer (signHS256 "s" pAccess))⟩

/-- C10: under the optional end-user session policy, a bearer token whose
user id matches no stored user, or matches an inactive user, is not an
error — the request proceeds with the context unchanged (no user, no
claims attached); under the required policy the same valid access token of
an inactive user is rejected Forbidden. -/
theorem optional_session (cfg : Config) (st : Store) (now : Nat)
    (ctx : Ctx) (t : SignedToken) :
    (getUser st t.payload.user_id = none →
      optionalJwtAuth cfg st now ctx (.bearer t) = .next ctx) ∧
    (∀ u, getUser st t.payload.user_id = some u → u.isActive = false →
      optionalJwtAuth cfg st now ctx (.bearer t) = .next ctx ∧
      (validateToken cfg.jwtSecretKey now t = .ok t.payload →
        t.payload.typ = "access" →
        jwtAuth cfg st now ctx (.bearer t) =
          .abort 403 "User is disabled")) := by
  constructor
  · intro hu
    unfold optionalJwtAuth
    simp only []
    cases hv : validateToken cfg.jwtSecretKey now t with
    | error e => simp [hv]
    | ok claims =>
      have hc := validateToken_ok_payload hv
      subst hc
      simp only [hv]
      split_ifs with h1
      · rfl
      · simp [hu]
  · intro u hu hina
    constructor
    · unfold optionalJwtAuth
      simp only []
      cases hv : validateToken cfg.jwtSecretKey now t with
      | error e => simp [hv]
      | ok claims =>
        have hc := validateToken_ok_payload hv
        subst hc
        simp only [hv]
        split_ifs with h1
        · rfl
        · simp [hu, hina]
    · intro hv htyp
      unfold jwtAuth
      simp only []
      simp only [hv]
      split_ifs with h1
      · simp [htyp] at h1
      · simp [hu, hina]

/-- A store with no rows at all. -/
def stEmpty : Store :=
  { apps := [], users := [], orgs := [], members := [],
    invitations := [], nextId := 1 }

/-- A store holding a single inactive user with id 1. -/
def stInactive : Store :=
  { apps := [], users := [{ id := 1, isActive := false }], orgs := [],
    members := [], invitations := [], nextId := 1 }

/-- Witness for C10: a correctly signed, unexpired access token for a
missing user and for an inactive user under both policies. -/
theorem optional_session_witness :
    optionalJwtAuth cfgT stEmpty 10 {}
      (.bearer (signHS256 "s" pAccess)) = .next {} ∧
    optionalJwtAuth cfgT stInactive 10 {}
      (.bearer (signHS256 "s" pAccess)) = .next {} ∧
    jwtAuth cfgT stInactive 10 {} (.bearer (signHS256 "s" pAccess)) =
      .abort 403 "User is disabled" :=
  ⟨(optional_session cfgT stEmpty 10 {} (signHS256 "s" pAccess)).1 rfl,
   ((optional_session cfgT stInactive 10 {} (signHS256 "s" pAccess)).2
      ⟨1, false⟩ rfl rfl).1,
   ((optional_session cfgT stInactive 10 {} (signHS256 "s" pAccess)).2
      ⟨1, false⟩ rfl rfl).2 rfl rfl⟩

/-- The invitation-lookup predicate of `AcceptInvitation`:
token match + status=PENDING. -/
def invLookup (token : String) (i : OrganizationInvitation) : Bool :=
  i.token == token && i.status == InvStatus.PENDING

/-- C2: create_organization inserts the Organization row and the creator's
OWNER membership atomically — on success (no write fails) the organization
row and exactly one founding OWNER membership for the creator exist; if
either insert fails, neither row persists: the store is unchanged and no
organization is returned. -/
theorem create_org_atomic (st : Store) (appID userID : Nat)
    (input : CreateOrganizationInput) (o : TxOracle) :
    (o.beginFails = false → o.firstWriteFails = false →
      o.secondWriteFails = false → o.commitFails = false →
      (createOrganization st appID userID input o).1 =
        .ok (newOrg st appID input) ∧
      (createOrganization st appID userID input o).2.orgs =
        st.orgs ++ [newOrg st appID input] ∧
      (createOrganization st appID userID input o).2.members =
        st.members ++ [newOwner st userID] ∧
      ((∀ m ∈ st.members, m.orgId ≠ st.nextId) →
        (createOrganization st appID userID input o).2.members.filter
          (fun m => m.orgId == st.nextId && m.userId == userID &&
            m.role == Role.OWNER) = [newOwner st userID])) ∧
    ((o.firstWriteFails = true ∨ o.secondWriteFails = true) →
      (createOrganization st appID userID input o).2 = st ∧
      ∀ org, (createOrganization st appID userID input o).1 ≠
        .ok org) := by
  obtain ⟨b, f, s2, c⟩ := o
  constructor
  · intro hb hf hs hc
    subst hb; subst hf; subst hs; subst hc
    refine ⟨rfl, rfl, rfl, fun hfresh => ?_⟩
    have hm : (createOrganization st appID userID input
        ⟨false, false, false, false⟩).2.members =
        st.members ++ [newOwner st userID] := rfl
    rw [hm, List.filter_append]
    have h0 : st.members.filter
        (fun m => m.orgId == st.nextId && m.userId == userID &&
          m.role == Role.OWNER) = [] := by
      rw [List.filter_eq_nil_iff]
      intro m hmem hp
      simp only [Bool.and_eq_true, beq_iff_eq] at hp
      exact hfresh m hmem hp.1.1
    rw [h0]
    simp [newOwner]
  · intro h
    constructor
    · rcases h with h | h <;>
        cases b <;> cases f <;> cases s2 <;> cases c <;>
        simp_all [createOrganization]
    · intro org
      rcases h with h | h <;>
        cases b <;> cases f <;> cases s2 <;> cases c <;>
        simp_all [createOrganization]

/-- The create-organization request body used by the C2 witness. -/
def inputT : CreateOrganizationInput :=
  { name := "N", slug := "n", description := "d", logoURL := "l" }

/-- Witness for C2: creating an organization in the empty store yields the
organization row and exactly its founding OWNER membership; a forced
membership-insert failure leaves the store unchanged. -/
theorem create_org_atomic_witness :
    (createOrganization stEmpty 2 3 inputT okTx).1 =
      .ok (newOrg stEmpty 2 inputT) ∧
    (createOrganization stEmpty 2 3 inputT okTx).2.members.filter
      (fun m => m.orgId == stEmpty.nextId && m.userId == 3 &&
        m.role == Role.OWNER) = [newOwner stEmpty 3] ∧
    (createOrganization stEmpty 2 3 inputT
      { secondWriteFails := true }).2 = stEmpty :=
  ⟨((create_org_atomic stEmpty 2 3 inputT okTx).1 rfl rfl rfl rfl).1,
   ((create_org_atomic stEmpty 2 3 inputT okTx).1 rfl rfl rfl rfl).2.2.2
      (by simp [stEmpty]),
   ((create_org_atomic stEmpty 2 3 inputT
      { secondWriteFails := true }).2 (Or.inr rfl)).1⟩

/-- C1 as stated is refuted by an invitation with the zero expiry
timestamp: helper fixture — a PENDING invitation whose `expires_at` is the
Go zero time. -/
def invZero : OrganizationInvitation :=
  { id := 5, orgId := 7, invitedById := 2, email := "e@x.com",
    role := .MEMBER, token := "tok", status := .PENDING,
    expiresAt := 0, acceptedAt := none }

/-- Store holding only `invZero`. -/
def stInv0 : Store :=
  { apps := [], users := [], orgs := [], members := [],
    invitations := [invZero], nextId := 10 }

/-- Counterexample for C1: at wall-clock time 1 the zero expiry timestamp
of the PENDING invitation `invZero` has passed (0 < 1), yet accepting
succeeds — a membership row is created, the invitation becomes ACCEPTED
rather than EXPIRED, and no Expired error is returned. -/
theorem accept_expired_cex :
    invZero.status = InvStatus.PENDING ∧
    invZero.expiresAt < 1 ∧
    (acceptInvitation stInv0 3 "tok" 1 okTx).1 = .ok 7 ∧
    (acceptInvitation stInv0 3 "tok" 1 okTx).2.members =
      [{ id := 10, orgId := 7, userId := 3, role := Role.MEMBER }] ∧
    (acceptInvitation stInv0 3 "tok" 1 okTx).2.invitations =
      [{ invZero with status := InvStatus.ACCEPTED, acceptedAt := some 1 }] := by
  refine ⟨rfl, Nat.zero_lt_one, ?_, ?_, ?_⟩ <;> rfl

/-- C1 (amended): accepting a PENDING invitation whose expiry timestamp is
non-zero and has passed transitions the invitation to EXPIRED, returns the
Expired error, does not return success, and creates no OrganizationMember
row. -/
theorem accept_expired (st : Store) (userID : Nat) (token : String)
    (now : Nat) (o : TxOracle) (inv : OrganizationInvitation)
    (hfind : st.invitations.find? (invLookup token) = some inv)
    (hnz : inv.expiresAt ≠ 0) (hpassed : inv.expiresAt < now) :
    (acceptInvitation st userID token now o).1 =
      .error "invitation has expired" ∧
    (∀ g, (acceptInvitation st userID token now o).1 ≠ .ok g) ∧
    (acceptInvitation st userID token now o).2.members = st.members ∧
    (∀ i ∈ (acceptInvitation st userID token now o).2.invitations,
      i.id = inv.id → i.status = .EXPIRED) ∧
    { inv with status := InvStatus.EXPIRED } ∈
      (acceptInvitation st userID token now o).2.invitations := by
  have hred : acceptInvitation st userID token now o =
      (.error "invitation has expired",
       { st with invitations := markExpired st.invitations inv.id }) := by
    unfold acceptInvitation
    rw [show st.invitations.find?
        (fun i => i.token == token && i.status == InvStatus.PENDING) =
        some inv from hfind]
    simp only []
    rw [if_pos ⟨hnz, hpassed⟩]
  rw [hred]
  refine ⟨rfl, by simp, rfl, ?_, ?_⟩
  · intro i hi hid
    unfold markExpired at hi
    rcases List.mem_map.mp hi with ⟨j, hj, rfl⟩
    by_cases hjid : (j.id == inv.id) = true
    · simp [hjid]
    · simp only [hjid, if_false] at hid ⊢
      exact absurd (by simpa using hid) (by simpa using hjid)
  · have hm := List.mem_of_find?_eq_some hfind
    have : ({ inv with status := InvStatus.EXPIRED } :
        OrganizationInvitation) =
        (fun i => if i.id == inv.id then
          { i with status := InvStatus.EXPIRED } else i) inv := by
      simp
    rw [this]
    exact List.mem_map_of_mem _ hm

/-- Fixture for the C1 witness: a PENDING invitation with a real (non-zero)
expiry timestamp in the past. -/
def invExp : OrganizationInvitation :=
  { id := 6, orgId := 7, invitedById := 2, email := "e@x.com",
    role := .ADMIN, token := "tok2", status := .PENDING,
    expiresAt := 50, acceptedAt := none }

/-- Store holding only `invExp`. -/
def stInvE : Store :=
  { apps := [], users := [], orgs := [], members := [],
    invitations := [invExp], nextId := 10 }

/-- Witness for C1 (amended): accepting `invExp` at time 100 (past its
expiry 50) returns the Expired error, creates no membership, and marks
the row EXPIRED. -/
theorem accept_expired_witness :
    (acceptInvitation stInvE 3 "tok2" 100 okTx).1 =
      .error "invitation has expired" ∧
    (acceptInvitation stInvE 3 "tok2" 100 okTx).2.members =
      stInvE.members ∧
    { invExp with status := InvStatus.EXPIRED } ∈
      (acceptInvitation stInvE 3 "tok2" 100 okTx).2.invitations := by
  have h := accept_expired stInvE 3 "tok2" 100 okTx invExp (by rfl)
    (by decide) (by decide)
  exact ⟨h.1, h.2.2.1, h.2.2.2.2⟩

/-- C7: accepting a PENDING invitation before its expiry creates exactly
one new OrganizationMember row whose role equals the invitation's role,
and in the same transaction sets the invitation's status to ACCEPTED with
a non-null acceptance timestamp; if either write fails, neither the
membership insert nor the status update persists. -/
theorem accept_pending_tx (st : Store) (userID : Nat) (token : String)
    (now : Nat) (o : TxOracle) (inv : OrganizationInvitation)
    (hfind : st.invitations.find? (invLookup token) = some inv)
    (hbefore : now < inv.expiresAt) :
    (o.beginFails = false → o.firstWriteFails = false →
      o.secondWriteFails = false → o.commitFails = false →
      (acceptInvitation st userID token now o).1 = .ok inv.orgId ∧
      (acceptInvitation st userID token now o).2.members =
        st.members ++ [invMember st inv userID] ∧
      { inv with status := InvStatus.ACCEPTED, acceptedAt := some now } ∈
        (acceptInvitation st userID token now o).2.invitations ∧
      (∀ i ∈ (acceptInvitation st userID token now o).2.invitations,
        i.id = inv.id →
          i.status = .ACCEPTED ∧ i.acceptedAt = some now)) ∧
    ((o.firstWriteFails = true ∨ o.secondWriteFails = true) →
      (acceptInvitation st userID token now o).2 = st ∧
      ∀ g, (acceptInvitation st userID token now o).1 ≠ .ok g) := by
  have hcond : ¬(inv.expiresAt ≠ 0 ∧ inv.expiresAt < now) :=
    fun h => absurd h.2 (Nat.lt_asymm hbefore)
  obtain ⟨b, f, s2, c⟩ := o
  constructor
  · intro hb hf hs hc
    subst hb; subst hf; subst hs; subst hc
    have hred : acceptInvitation st userID token now
        ⟨false, false, false, false⟩ =
        (.ok inv.orgId, acceptedState st inv userID now) := by
      unfold acceptInvitation acceptedState invMember markAccepted
      rw [show st.invitations.find?
          (fun i => i.token == token && i.status == InvStatus.PENDING) =
          some inv from hfind]
      simp only []
      rw [if_neg hcond]
      rfl
    rw [hred]
    refine ⟨rfl, rfl, ?_, ?_⟩
    · have hm := List.mem_of_find?_eq_some hfind
      have heq : ({ inv with status := InvStatus.ACCEPTED, acceptedAt := some now } : OrganizationInvitation) =
          (fun i => if i.id == inv.id then { i with status := InvStatus.ACCEPTED, acceptedAt := some now } else i) inv := by
        simp
      rw [heq]
      exact List.mem_map_of_mem _ hm
    · intro i hi hid
      have hi2 : i ∈ markAccepted st.invitations inv.id now := hi
      unfold markAccepted at hi2
      rcases List.mem_map.mp hi2 with ⟨j, hj, rfl⟩
      by_cases hjid : (j.id == inv.id) = true
      · simp [hjid]
      · simp only [hjid, if_false] at hid ⊢
        exact absurd (by simpa using hid) (by simpa using hjid)
  · intro h
    have hb1 : ∀ b1 f1 s1 c1,
        (f1 = true ∨ s1 = true) →
        acceptInvitation st userID token now ⟨b1, f1, s1, c1⟩ =
          (if b1 then .error "tx begin failed"
           else if f1 then .error "member insert failed"
           else .error "invitation update failed", st) := by
      intro b1 f1 s1 c1 h1
      unfold acceptInvitation
      rw [show st.invitations.find?
          (fun i => i.token == token && i.status == InvStatus.PENDING) =
          some inv from hfind]
      simp only []
      rw [if_neg hcond]
      rcases h1 with h1 | h1 <;>
        cases b1 <;> cases f1 <;> cases s1 <;> cases c1 <;> simp_all
    rw [hb1 b f s2 c h]
    refine ⟨rfl, fun g hg => ?_⟩
    cases b <;> cases f <;> simp_all

/-- Fixture for the C7 witness: a PENDING invitation expiring at 1000. -/
def invFresh : OrganizationInvitation :=
  { id := 8, orgId := 7, invitedById := 2, email := "e@x.com",
    role := .ADMIN, token := "tok3", status := .PENDING,
    expiresAt := 1000, acceptedAt := none }

/-- Store holding only `invFresh`. -/
def stInvF : Store :=
  { apps := [], users := [], orgs := [], members := [],
    invitations := [invFresh], nextId := 10 }

/-- Witness for C7: accepting `invFresh` at time 100 (before expiry 1000)
creates one ADMIN membership and marks the invitation ACCEPTED at 100;
forcing the invitation update to fail leaves the store unchanged. -/
theorem accept_pending_tx_witness :
    (acceptInvitation stInvF 3 "tok3" 100 okTx).1 = .ok 7 ∧
    (acceptInvitation stInvF 3 "tok3" 100 okTx).2.members =
      [{ id := 10, orgId := 7, userId := 3, role := Role.ADMIN }] ∧
    { invFresh with status := InvStatus.ACCEPTED, acceptedAt := some 100 } ∈
      (acceptInvitation stInvF 3 "tok3" 100 okTx).2.invitations ∧
    (acceptInvitation stInvF 3 "tok3" 100
      { secondWriteFails := true }).2 = stInvF := by
  have h := (accept_pending_tx stInvF 3 "tok3" 100 okTx invFresh
    (by rfl) (by decide)).1 rfl rfl rfl rfl
  have h2 := (accept_pending_tx stInvF 3 "tok3" 100
    { secondWriteFails := true } invFresh (by rfl) (by decide)).2
    (Or.inr rfl)
  exact ⟨h.1, h.2.1, h.2.2.1, h2.1⟩

/-- C9: in accept_invitation, a PENDING invitation whose expiry timestamp
is the zero time is treated as never expiring — for every current time the
expiry branch is not taken, no Expired error is returned, and acceptance
proceeds as if the invitation were unexpired. -/
theorem accept_zero_expiry (st : Store) (userID : Nat) (token : String)
    (now : Nat) (o : TxOracle) (inv : OrganizationInvitation)
    (hfind : st.invitations.find? (invLookup token) = some inv)
    (hz : inv.expiresAt = 0) :
    (acceptInvitation st userID token now o).1 ≠
      .error "invitation has expired" ∧
    (o.beginFails = false → o.firstWriteFails = false →
      o.secondWriteFails = false → o.commitFails = false →
      (acceptInvitation st userID token now o).1 = .ok inv.orgId ∧
      (acceptInvitation st userID token now o).2.members =
        st.members ++ [invMember st inv userID]) := by
  have hcond : ¬(inv.expiresAt ≠ 0 ∧ inv.expiresAt < now) :=
    fun h => absurd hz h.1
  obtain ⟨b, f, s2, c⟩ := o
  constructor
  · unfold acceptInvitation
    rw [show st.invitations.find?
        (fun i => i.token == token && i.status == InvStatus.PENDING) =
        some inv from hfind]
    simp only []
    rw [if_neg hcond]
    cases b <;> cases f <;> cases s2 <;> cases c <;> simp
  · intro hb hf hs hc
    subst hb; subst hf; subst hs; subst hc
    have hred : acceptInvitation st userID token now
        ⟨false, false, false, false⟩ =
        (.ok inv.orgId, acceptedState st inv userID now) := by
      unfold acceptInvitation acceptedState invMember markAccepted
      rw [show st.invitations.find?
          (fun i => i.token == token && i.status == InvStatus.PENDING) =
          some inv from hfind]
      simp only []
      rw [if_neg hcond]
      rfl
    rw [hred]
    exact ⟨rfl, rfl⟩

/-- Witness for C9: accepting the zero-expiry invitation `invZero` at time
1 does not report expiry and creates the membership. -/
theorem accept_zero_expiry_witness :
    (acceptInvitation stInv0 3 "tok" 1 okTx).1 ≠
      .error "invitation has expired" ∧
    (acceptInvitation stInv0 3 "tok" 1 okTx).1 = .ok 7 := by
  have h := accept_zero_expiry stInv0 3 "tok" 1 okTx invZero
    (by rfl) (by rfl)
  exact ⟨h.1, (h.2 rfl rfl rfl rfl).1⟩

end Lem
